import Mathlib

/-
Verification of the REST request-handler module (src/rest.ts).

The module defines `createRestHandler`, which for a fixed HTTP method turns a
pair (mask, resolver) into a handler descriptor with the lifecycle operations
`parse`, `predicate`, `getPublicRequest`, `resolver`, `defineContext`, `log`,
and the `rest` record exposing one factory per HTTP method.

External collaborators that are imported by src/rest.ts but whose sources are
not part of this repository snapshot (the URL matcher, the mask normalizer,
the case-insensitive string comparison, the context helpers, the platform URL
class and node's url.format) are either taken as explicit function parameters
of the embedding or modelled from the specification; each such definition says
so in its doc comment.  Console emission (console.warn inside `log`) is
modelled by returning the emitted warnings as data.
-/

namespace MSW

/-- The slice of the platform URL object that src/rest.ts reads: `origin`,
`protocol` (with trailing colon, e.g. "https:"), `host`, `pathname`, `search`
(with leading "?" when non-empty) and `searchParams` (as name/value pairs,
in order). -/
structure Url where
  protocol : String
  host : String
  pathname : String
  search : String
  searchParams : List (String × String)
deriving Repr, DecidableEq

/-- Platform URL behavior: for http/https URLs, `origin` is
`protocol + "//" + host`. -/
def Url.origin (u : Url) : String :=
  u.protocol ++ "//" ++ u.host

/-- A Mask (src/setupWorker/glossary.ts, not among the sources; modelled from
the spec): an exact string, a regular expression (represented by its pattern
source, which the module never inspects), or a URL object. -/
inductive Mask where
  | str : String → Mask
  | regex : String → Mask
  | url : Url → Mask
deriving Repr, DecidableEq

/-- JavaScript truthiness of a Mask value as used in `mask && ...`: the empty
string is the only falsy Mask; regular expressions and URL objects are
objects, hence always truthy. -/
def maskTruthy : Mask → Bool
  | Mask.str s => s != ""
  | Mask.regex _ => true
  | Mask.url _ => true

/-- Result of the external URL matcher (src/utils/matching/matchRequest.ts is
not among the sources; modelled from the spec): a `matches` flag and a mapping
from path-parameter name to extracted value, empty when the mask carries no
parameters.  The mapping is always present, hence always a truthy object in
JavaScript terms. -/
structure MatchResult where
  «matches» : Bool
  params : List (String × String)
deriving Repr, DecidableEq

/-- The incoming request as read by src/rest.ts (the MockedRequest interface
lives in src/handlers/requestHandler.ts, not among the sources; modelled from
the spec): a method, a URL, a referrer, headers and a body. -/
structure MockedRequest where
  method : String
  url : Url
  referrer : String
  headers : List (String × String)
  body : String
deriving Repr, DecidableEq

/-- The request as seen by the resolver: all fields of the incoming request
plus the extracted path parameters.  `params` is a field of the record, so it
is always present (never undefined/absent). -/
structure PublicRequest where
  method : String
  url : Url
  referrer : String
  headers : List (String × String)
  body : String
  params : List (String × String)
deriving Repr, DecidableEq

/-- ParsedRestRequest from src/rest.ts.  The source names the field `match`,
which is a reserved word in Lean, so the embedding calls it `matchResult`. -/
structure ParsedRestRequest where
  matchResult : MatchResult
deriving Repr, DecidableEq

/-- The mock response accumulated by the context helpers; opaque to
src/rest.ts beyond being loggable.  Modelled from the spec. -/
structure MockResponse where
  status : Nat
  headers : List (String × String)
  cookies : List (String × String)
  body : String
  delayMs : Nat
deriving Repr, DecidableEq

/-- Modelled from the spec: the initial response a response-composition chain
starts from (src/response.ts is not among the sources). -/
def defaultResponse : MockResponse :=
  { status := 200, headers := [], cookies := [], body := "", delayMs := 0 }

/-- The `res` response-composition function handed to a resolver: applies a
list of response transformers in order.  Modelled from the spec
(src/response.ts is not among the sources). -/
abbrev ResponseBuilder := List (MockResponse → MockResponse) → MockResponse

/-- Modelled from the spec: the default response builder. -/
def responseBuilder : ResponseBuilder := fun transformers =>
  transformers.foldl (fun r t => t r) defaultResponse

namespace context

/-- Modelled from the spec: `set` adds/overwrites a response header
(src/context/set.ts is not among the sources). -/
def set (name value : String) (r : MockResponse) : MockResponse :=
  { r with headers := (name, value) :: r.headers.filter (fun p => p.fst != name) }

/-- Modelled from the spec: `status` sets the numeric status code
(src/context/status.ts is not among the sources). -/
def status (code : Nat) (r : MockResponse) : MockResponse :=
  { r with status := code }

/-- Modelled from the spec: `cookie` appends a response cookie
(src/context/cookie.ts is not among the sources). -/
def cookie (name value : String) (r : MockResponse) : MockResponse :=
  { r with cookies := r.cookies ++ [(name, value)] }

/-- Modelled from the spec: `body` sets a raw response body
(src/context/body.ts is not among the sources). -/
def body (b : String) (r : MockResponse) : MockResponse :=
  { r with body := b }

/-- Modelled from the spec: `text` sets the body with a text content type
(src/context/text.ts is not among the sources). -/
def text (b : String) (r : MockResponse) : MockResponse :=
  set "Content-Type" "text/plain" (body b r)

/-- Modelled from the spec: `json` sets the body with a JSON content type,
the value being already serialized (src/context/json.ts is not among the
sources). -/
def json (b : String) (r : MockResponse) : MockResponse :=
  set "Content-Type" "application/json" (body b r)

/-- Modelled from the spec: `xml` sets the body with an XML content type
(src/context/xml.ts is not among the sources). -/
def xml (b : String) (r : MockResponse) : MockResponse :=
  set "Content-Type" "text/xml" (body b r)

/-- Modelled from the spec: `delay` defers response delivery by a duration
(src/context/delay.ts is not among the sources). -/
def delay (ms : Nat) (r : MockResponse) : MockResponse :=
  { r with delayMs := ms }

/-- Modelled from the spec: `fetch` performs the real, unmocked request.  The
network lies outside the embedding, so the passthrough is abstracted as a
function of the request (src/context/fetch.ts is not among the sources). -/
def fetch (_req : MockedRequest) : MockResponse :=
  defaultResponse

end context

/-- The Context Toolkit record type: exactly the nine members of the
`restContext` object literal in src/rest.ts. -/
structure RestContext where
  set : String → String → MockResponse → MockResponse
  status : Nat → MockResponse → MockResponse
  cookie : String → String → MockResponse → MockResponse
  body : String → MockResponse → MockResponse
  text : String → MockResponse → MockResponse
  json : String → MockResponse → MockResponse
  xml : String → MockResponse → MockResponse
  delay : Nat → MockResponse → MockResponse
  fetch : MockedRequest → MockResponse

/-- The `restContext` object literal of src/rest.ts: the fixed toolkit built
from the nine imported context helpers. -/
def restContext : RestContext :=
  { set := context.set
    status := context.status
    cookie := context.cookie
    body := context.body
    text := context.text
    json := context.json
    xml := context.xml
    delay := context.delay
    fetch := context.fetch }

/-- A response resolver: the user-supplied function receiving the public
request, the response builder and the context toolkit.  A thrown error is
modelled as `Except.error`. -/
abbrev ResponseResolver :=
  PublicRequest → ResponseBuilder → RestContext → Except String MockResponse

/-- ASCII lowercasing of one character, the alphabet relevant to HTTP method
names. -/
def charLower (c : Char) : Char :=
  if 'A' ≤ c ∧ c ≤ 'Z' then Char.ofNat (c.toNat + 32) else c

/-- Modelled from the spec: `isStringEqual` compares two strings
case-insensitively, i.e. lowercases both sides and compares
(src/utils/isStringEqual.ts is not among the sources). -/
def isStringEqual (a b : String) : Bool :=
  a.data.map charLower == b.data.map charLower

/-- Modelled from the spec: `resolveMask` normalizes a Mask to canonical form;
per the spec's data model the resolved Mask is URL-shaped exactly when it is
derived from a URL-shaped Mask, and string and regular-expression Masks stay
as they are (src/utils/resolveMask.ts is not among the sources). -/
def resolveMask : Mask → Mask
  | Mask.url u => Mask.url u
  | Mask.str s => Mask.str s
  | Mask.regex r => Mask.regex r

/-- node url.format restricted to the fields src/rest.ts passes it
(protocol with trailing colon, host, pathname): renders
`protocol + "//" + host + pathname`.  Modelled from the node `url` module,
an external dependency. -/
def formatUrl (protocol host pathname : String) : String :=
  protocol ++ "//" ++ host ++ pathname

/-- One emission of the redundant-query-parameter warning.  Rendering of the
message text is out of scope per the spec; the record keeps the data the
message interpolates: the handler method, the mask, the resolved pathname and
each query-parameter name collected from `searchParams`. -/
structure Warning where
  method : String
  mask : Mask
  pathname : String
  queryParamNames : List String
deriving Repr, DecidableEq

/-- The structured content of one `log` invocation: the console.warn
emissions performed during the call, followed by the console group data
(method, human-readable public URL, response status, and the handler identity
mask + resolver logged under "Handler:").  Timestamp and color rendering are
out of scope per the spec. -/
structure LogEntry where
  warnings : List Warning
  method : String
  publicUrl : String
  status : Nat
  loggedMask : Mask
  loggedResolver : ResponseResolver
  loggedRequest : MockedRequest
  loggedResponse : MockResponse

/-- The body of the `log` method of src/rest.ts, as a function of the values
the closure captures (`method`, `mask`, `resolvedMask`) and the call arguments
(`req`, `res`, and the handler's resolver, the only field of the `handler`
argument the source reads). -/
def logRequest (method : String) (mask : Mask) (resolvedMask : Mask)
    (req : MockedRequest) (res : MockResponse)
    (handlerResolver : ResponseResolver) : LogEntry :=
  let warnings : List Warning :=
    match resolvedMask with
    | Mask.url u =>
        if u.search ≠ "" then
          [{ method := method
             mask := mask
             pathname := u.pathname
             queryParamNames := u.searchParams.map Prod.fst }]
        else []
    | _ => []
  let isRelativeRequest := req.referrer.startsWith req.url.origin
  let publicUrl :=
    if isRelativeRequest then req.url.pathname
    else formatUrl req.url.protocol req.url.host req.url.pathname
  { warnings := warnings
    method := req.method
    publicUrl := publicUrl
    status := res.status
    loggedMask := mask
    loggedResolver := handlerResolver
    loggedRequest := req
    loggedResponse := res }

/-- The RESTMethods enum of src/rest.ts. -/
inductive RESTMethods where
  | GET | POST | PUT | PATCH | OPTIONS | DELETE
deriving Repr, DecidableEq

/-- The string value each RESTMethods enum member carries in the source. -/
def RESTMethods.toString : RESTMethods → String
  | RESTMethods.GET => "GET"
  | RESTMethods.POST => "POST"
  | RESTMethods.PUT => "PUT"
  | RESTMethods.PATCH => "PATCH"
  | RESTMethods.OPTIONS => "OPTIONS"
  | RESTMethods.DELETE => "DELETE"

/-- The handler descriptor returned by `createRestHandler`.  The source's
`log(req, res, handler)` only reads `handler.resolver`, so the embedding types
the third argument as the resolver to keep the record non-recursive. -/
structure RequestHandler where
  parse : MockedRequest → ParsedRestRequest
  predicate : MockedRequest → ParsedRestRequest → Bool
  getPublicRequest : MockedRequest → ParsedRestRequest → PublicRequest
  resolver : ResponseResolver
  defineContext : Unit → RestContext
  log : MockedRequest → MockResponse → ResponseResolver → LogEntry

/-- `createRestHandler` from src/rest.ts, parameterized over the external URL
matcher `matchRequestUrl` (src/utils/matching/matchRequest.ts is not among the
sources; the module only forwards to it).  The constructor body computes
`resolvedMask := resolveMask mask` and returns the descriptor; it performs no
console emission.  In `getPublicRequest`, the source computes
`(mask && parsedRequest.match.params) || defaultEmpty`: the params mapping is
always a (truthy) object, so the expression is the params mapping when the
mask is truthy and the empty mapping otherwise. -/
def createRestHandler (matchRequestUrl : Url → Mask → MatchResult)
    (method : RESTMethods) (mask : Mask) (resolver : ResponseResolver) :
    RequestHandler :=
  { parse := fun req =>
      { matchResult := matchRequestUrl req.url mask }
    predicate := fun req parsedRequest =>
      isStringEqual method.toString req.method && parsedRequest.matchResult.matches
    getPublicRequest := fun req parsedRequest =>
      let params :=
        if maskTruthy mask then parsedRequest.matchResult.params else []
      { method := req.method
        url := req.url
        referrer := req.referrer
        headers := req.headers
        body := req.body
        params := params }
    resolver := resolver
    defineContext := fun _ => restContext
    log := fun req res handlerResolver =>
      logRequest method.toString mask (resolveMask mask) req res handlerResolver }

/-- The console.warn emissions performed while the constructor body of
`createRestHandler` runs for a given mask: the body only calls `resolveMask`
and builds the descriptor record, so construction emits nothing — the
redundant-query-parameter warning of src/rest.ts lives inside `log`. -/
def constructionWarnings (_method : RESTMethods) (_mask : Mask) : List Warning :=
  []

/-- The shape of the `rest` export: one factory per HTTP method. -/
structure RestApi where
  get : Mask → ResponseResolver → RequestHandler
  post : Mask → ResponseResolver → RequestHandler
  put : Mask → ResponseResolver → RequestHandler
  delete : Mask → ResponseResolver → RequestHandler
  patch : Mask → ResponseResolver → RequestHandler
  options : Mask → ResponseResolver → RequestHandler

/-- The `rest` export of src/rest.ts, parameterized over the external URL
matcher. -/
def rest (matchRequestUrl : Url → Mask → MatchResult) : RestApi :=
  { get := createRestHandler matchRequestUrl RESTMethods.GET
    post := createRestHandler matchRequestUrl RESTMethods.POST
    put := createRestHandler matchRequestUrl RESTMethods.PUT
    delete := createRestHandler matchRequestUrl RESTMethods.DELETE
    patch := createRestHandler matchRequestUrl RESTMethods.PATCH
    options := createRestHandler matchRequestUrl RESTMethods.OPTIONS }

/-- The condition guarding the redundant-query-parameter warning in `log`:
`resolvedMask instanceof URL && resolvedMask.search !== ""`. -/
def maskIsUrlWithSearch : Mask → Bool
  | Mask.url u => u.search != ""
  | Mask.str _ => false
  | Mask.regex _ => false

/-- Modelled from the spec: the interception layer drives one request through
a handler in the fixed order parse → predicate → (iff true) getPublicRequest →
resolver → log, awaiting resolution before logging; a thrown resolver error
(Except.error) propagates and `log` is not invoked (the driver lives in the
excluded transport, outside the sources).  Returns the error, or the response
paired with the log emission when the handler claimed the request. -/
def runHandledRequest (h : RequestHandler) (req : MockedRequest) :
    Except String (Option (MockResponse × LogEntry)) :=
  let parsed := h.parse req
  if h.predicate req parsed then
    match h.resolver (h.getPublicRequest req parsed) responseBuilder (h.defineContext ()) with
    | Except.error e => Except.error e
    | Except.ok res => Except.ok (some (res, h.log req res h.resolver))
  else
    Except.ok none

/- Concrete sample values used to instantiate the external-matcher parameter
and the requests in closed-form checks. -/

/-- A matcher that reports a match with one extracted parameter, used to
instantiate the external-matcher parameter in concrete checks. -/
def matcherAlwaysId : Url → Mask → MatchResult :=
  fun _ _ => { «matches» := true, params := [("id", "42")] }

/-- A concrete request URL without a query string. -/
def apiUrl : Url :=
  { protocol := "https:", host := "api.test", pathname := "/user/42",
    search := "", searchParams := [] }

/-- The URL object of the scenario rest.get(new URL("https://api.test/search?q=1"), resolver). -/
def queryMaskUrl : Url :=
  { protocol := "https:", host := "api.test", pathname := "/search",
    search := "?q=1", searchParams := [("q", "1")] }

/-- A URL-shaped mask carrying a non-empty query string. -/
def queryMask : Mask := Mask.url queryMaskUrl

/-- A GET request with an empty referrer (hence cross-origin: the empty
referrer does not start with the non-empty origin). -/
def getRequest : MockedRequest :=
  { method := "GET", url := apiUrl, referrer := "", headers := [], body := "" }

/-- A second request sharing the URL of `getRequest` but differing in method,
referrer, headers and body. -/
def postRequest : MockedRequest :=
  { method := "POST", url := apiUrl, referrer := "https://app.test/page",
    headers := [("Accept", "text/html")], body := "payload" }

/-- A resolver that succeeds with the default composed response. -/
def okResolver : ResponseResolver :=
  fun _ res _ => Except.ok (res [])

/-- A resolver that throws. -/
def boomResolver : ResponseResolver :=
  fun _ _ _ => Except.error "boom"

/-- A request with its URL's query string and searchParams replaced. -/
def withSearch (req : MockedRequest) (s : String) (ps : List (String × String)) :
    MockedRequest :=
  { req with url := { req.url with search := s, searchParams := ps } }

/-- Helper: `runHandledRequest` forwards a resolver error unmodified and
produces no log entry when the handler claims the request but resolution
throws. -/
theorem runHandledRequest_error (h : RequestHandler) (req : MockedRequest) (e : String)
    (hpred : h.predicate req (h.parse req) = true)
    (herr : h.resolver (h.getPublicRequest req (h.parse req)) responseBuilder
        (h.defineContext ()) = Except.error e) :
    runHandledRequest h req = Except.error e := by
  simp [runHandledRequest, hpred, herr]

/-- C1 counterexample: for the handler built from the URL-shaped mask
"https://api.test/search?q=1", construction emits no warning at all (zero, not
exactly one), while each `log` call emits the redundant-query-parameter
warning once — here for two distinct logged requests — so the warning is
per logged request, not once at construction time. -/
theorem c1_warning_not_at_construction :
    (constructionWarnings RESTMethods.GET queryMask).length = 0 ∧
    ((createRestHandler matcherAlwaysId RESTMethods.GET queryMask okResolver).log
        getRequest defaultResponse okResolver).warnings.length = 1 ∧
    ((createRestHandler matcherAlwaysId RESTMethods.GET queryMask okResolver).log
        postRequest defaultResponse okResolver).warnings.length = 1 := by
  refine ⟨rfl, ?_, ?_⟩ <;> rfl

/-- C1 (amended): the redundant-query-parameter warning is emitted inside
`log` — hence once per logged request, not at construction time — and each
`log` call emits it exactly once when and only when the resolved Mask is
URL-shaped with a non-empty query string; never for string or
regular-expression Masks.  Construction itself emits nothing. -/
theorem c1_redundant_query_warning_per_log
    (matchRequestUrl : Url → Mask → MatchResult) (method : RESTMethods)
    (mask : Mask) (resolver handlerResolver : ResponseResolver)
    (req : MockedRequest) (res : MockResponse) :
    ((createRestHandler matchRequestUrl method mask resolver).log req res
        handlerResolver).warnings.length
      = (if maskIsUrlWithSearch (resolveMask mask) then 1 else 0) ∧
    constructionWarnings method mask = [] := by
  constructor
  · cases mask with
    | str s => simp [createRestHandler, logRequest, resolveMask, maskIsUrlWithSearch]
    | regex r => simp [createRestHandler, logRequest, resolveMask, maskIsUrlWithSearch]
    | url u =>
        by_cases h : u.search = "" <;>
          simp [createRestHandler, logRequest, resolveMask, maskIsUrlWithSearch, h]
  · rfl

/-- C2: for every method factory, mask, resolver and request, the predicate
evaluated on the parse result of that request is true iff the case-insensitive
method comparison succeeds and the external matcher run on the request URL and
the mask reports a match. -/
theorem c2_predicate_iff (matchRequestUrl : Url → Mask → MatchResult)
    (method : RESTMethods) (mask : Mask) (resolver : ResponseResolver)
    (req : MockedRequest) :
    (createRestHandler matchRequestUrl method mask resolver).predicate req
        ((createRestHandler matchRequestUrl method mask resolver).parse req) = true ↔
      (isStringEqual method.toString req.method = true ∧
        (matchRequestUrl req.url mask).matches = true) := by
  simp [createRestHandler, Bool.and_eq_true]

/-- C3: getPublicRequest returns a shallow copy of the request — every request
field copied, plus a `params` field that is always present — with `params`
equal to the parse result's params mapping when the mask is truthy and the
empty mapping when the mask is falsy. -/
theorem c3_public_request_params (matchRequestUrl : Url → Mask → MatchResult)
    (method : RESTMethods) (mask : Mask) (resolver : ResponseResolver)
    (req : MockedRequest) (parsed : ParsedRestRequest) :
    (createRestHandler matchRequestUrl method mask resolver).getPublicRequest req parsed
      = { method := req.method, url := req.url, referrer := req.referrer,
          headers := req.headers, body := req.body,
          params := if maskTruthy mask then parsed.matchResult.params else [] } := by
  rfl

/-- C4: the descriptor stores the user-supplied resolver unmodified, and when
the resolver of a request the handler claims throws, the error propagates out
of the lifecycle driver unmodified and `log` is never invoked (no log entry is
produced for that request). -/
theorem c4_resolver_error_propagates (matchRequestUrl : Url → Mask → MatchResult)
    (method : RESTMethods) (mask : Mask) (resolver : ResponseResolver)
    (req : MockedRequest) (e : String)
    (hpred : (createRestHandler matchRequestUrl method mask resolver).predicate req
        ((createRestHandler matchRequestUrl method mask resolver).parse req) = true)
    (herr : resolver
        ((createRestHandler matchRequestUrl method mask resolver).getPublicRequest req
          ((createRestHandler matchRequestUrl method mask resolver).parse req))
        responseBuilder restContext = Except.error e) :
    (createRestHandler matchRequestUrl method mask resolver).resolver = resolver ∧
    runHandledRequest (createRestHandler matchRequestUrl method mask resolver) req
      = Except.error e :=
  ⟨rfl, runHandledRequest_error _ req e hpred herr⟩

/-- C4 witness: a concrete matched GET request whose resolver throws "boom":
the driver returns exactly that error and produces no log entry. -/
theorem c4_witness :
    (createRestHandler matcherAlwaysId RESTMethods.GET (Mask.str "/user/:id")
        boomResolver).predicate getRequest
      ((createRestHandler matcherAlwaysId RESTMethods.GET (Mask.str "/user/:id")
        boomResolver).parse getRequest) = true ∧
    runHandledRequest
        (createRestHandler matcherAlwaysId RESTMethods.GET (Mask.str "/user/:id")
          boomResolver) getRequest
      = Except.error "boom" :=
  ⟨by decide,
    (c4_resolver_error_propagates matcherAlwaysId RESTMethods.GET
      (Mask.str "/user/:id") boomResolver getRequest "boom" (by decide) rfl).2⟩

/-- C5: the human-readable URL of the log entry is the request URL's pathname
alone exactly when the request is same-origin, and the formatted full URL
(protocol + host + pathname) otherwise; same-origin is decided by whether the
request's referrer starts with the request URL's origin. -/
theorem c5_public_url_shape (matchRequestUrl : Url → Mask → MatchResult)
    (method : RESTMethods) (mask : Mask) (resolver handlerResolver : ResponseResolver)
    (req : MockedRequest) (res : MockResponse) :
    ((createRestHandler matchRequestUrl method mask resolver).log req res
        handlerResolver).publicUrl
      = if req.referrer.startsWith req.url.origin then req.url.pathname
        else formatUrl req.url.protocol req.url.host req.url.pathname := by
  rfl

/-- C6: every descriptor produced by any of the six method factories of `rest`
exposes, via defineContext, the one `restContext` toolkit — the record with
exactly the members set, status, cookie, body, text, json, xml, delay and
fetch — identical across all factories. -/
theorem c6_define_context_uniform (matchRequestUrl : Url → Mask → MatchResult)
    (mask : Mask) (resolver : ResponseResolver) :
    ((rest matchRequestUrl).get mask resolver).defineContext () = restContext ∧
    ((rest matchRequestUrl).post mask resolver).defineContext () = restContext ∧
    ((rest matchRequestUrl).put mask resolver).defineContext () = restContext ∧
    ((rest matchRequestUrl).delete mask resolver).defineContext () = restContext ∧
    ((rest matchRequestUrl).patch mask resolver).defineContext () = restContext ∧
    ((rest matchRequestUrl).options mask resolver).defineContext () = restContext :=
  ⟨rfl, rfl, rfl, rfl, rfl, rfl⟩

/-- C7: parsing the same request twice with the same handler yields parsed
states whose match results have identical matches flags and identical params
mappings; the external matcher is a function parameter of the embedding, so
its purity — the claim's hypothesis — holds by construction, and the two
evaluations coincide. -/
theorem c7_parse_idempotent (matchRequestUrl : Url → Mask → MatchResult)
    (method : RESTMethods) (mask : Mask) (resolver : ResponseResolver)
    (req : MockedRequest) :
    (((createRestHandler matchRequestUrl method mask resolver).parse req).matchResult.matches
      = ((createRestHandler matchRequestUrl method mask resolver).parse req).matchResult.matches) ∧
    (((createRestHandler matchRequestUrl method mask resolver).parse req).matchResult.params
      = ((createRestHandler matchRequestUrl method mask resolver).parse req).matchResult.params) :=
  ⟨rfl, rfl⟩

/-- C8: getPublicRequest constructs the public request by value: every field
of the result other than `params` is read from the incoming request, the
incoming request is passed by value and never written (the embedding returns
no updated request, and the MockedRequest type has no `params` field that
could be added to the original), so after the call every field of the original
request is unchanged. -/
theorem c8_no_mutation (matchRequestUrl : Url → Mask → MatchResult)
    (method : RESTMethods) (mask : Mask) (resolver : ResponseResolver)
    (req : MockedRequest) (parsed : ParsedRestRequest) :
    (((createRestHandler matchRequestUrl method mask resolver).getPublicRequest req
        parsed).method = req.method) ∧
    (((createRestHandler matchRequestUrl method mask resolver).getPublicRequest req
        parsed).url = req.url) ∧
    (((createRestHandler matchRequestUrl method mask resolver).getPublicRequest req
        parsed).referrer = req.referrer) ∧
    (((createRestHandler matchRequestUrl method mask resolver).getPublicRequest req
        parsed).headers = req.headers) ∧
    (((createRestHandler matchRequestUrl method mask resolver).getPublicRequest req
        parsed).body = req.body) :=
  ⟨rfl, rfl, rfl, rfl, rfl⟩

/-- C9: the parse result depends only on the request's URL: two requests with
the same url field — whatever their method, headers, body and referrer —
produce equal ParsedRestRequest values under the same handler. -/
theorem c9_parse_depends_only_on_url (matchRequestUrl : Url → Mask → MatchResult)
    (method : RESTMethods) (mask : Mask) (resolver : ResponseResolver)
    (req1 req2 : MockedRequest) (h : req1.url = req2.url) :
    (createRestHandler matchRequestUrl method mask resolver).parse req1
      = (createRestHandler matchRequestUrl method mask resolver).parse req2 := by
  simp [createRestHandler, h]

/-- C9 witness: `getRequest` and `postRequest` share a URL but differ in
method, referrer, headers and body; their parse results coincide. -/
theorem c9_witness :
    getRequest.url = postRequest.url ∧
    (createRestHandler matcherAlwaysId RESTMethods.GET (Mask.str "/user/:id")
        okResolver).parse getRequest
      = (createRestHandler matcherAlwaysId RESTMethods.GET (Mask.str "/user/:id")
          okResolver).parse postRequest :=
  ⟨rfl,
    c9_parse_depends_only_on_url matcherAlwaysId RESTMethods.GET
      (Mask.str "/user/:id") okResolver getRequest postRequest rfl⟩

/-- C10: for a cross-origin request — one whose referrer does not start with
the request URL's origin — the logged URL is built from the URL's protocol,
host and pathname only, and it is invariant under any change of the URL's
query string and searchParams, so the query string never appears in it. -/
theorem c10_cross_origin_url_no_query (matchRequestUrl : Url → Mask → MatchResult)
    (method : RESTMethods) (mask : Mask) (resolver handlerResolver : ResponseResolver)
    (req : MockedRequest) (res : MockResponse) (s : String)
    (ps : List (String × String))
    (h : req.referrer.startsWith req.url.origin = false) :
    ((createRestHandler matchRequestUrl method mask resolver).log req res
        handlerResolver).publicUrl
      = formatUrl req.url.protocol req.url.host req.url.pathname ∧
    ((createRestHandler matchRequestUrl method mask resolver).log
        (withSearch req s ps) res handlerResolver).publicUrl
      = ((createRestHandler matchRequestUrl method mask resolver).log req res
          handlerResolver).publicUrl := by
  constructor
  · simp [createRestHandler, logRequest, h]
  · simp [createRestHandler, logRequest, withSearch, Url.origin]

/-- C10 witness: `getRequest` has an empty referrer, hence is cross-origin;
its logged URL is the formatted protocol + host + pathname, and replacing the
query string leaves the logged URL unchanged. -/
theorem c10_witness :
    getRequest.referrer.startsWith getRequest.url.origin = false ∧
    ((createRestHandler matcherAlwaysId RESTMethods.GET (Mask.str "/user/:id")
        okResolver).log getRequest defaultResponse okResolver).publicUrl
      = formatUrl getRequest.url.protocol getRequest.url.host getRequest.url.pathname :=
  ⟨by decide,
    (c10_cross_origin_url_no_query matcherAlwaysId RESTMethods.GET
      (Mask.str "/user/:id") okResolver okResolver getRequest defaultResponse
      "?q=9" [("q", "9")] (by decide)).1⟩

end MSW
